import Mathlib

/-!
Shallow embedding of the LAZ (streaming) backend of the lidario library:
`lazfile.go` (LazFile, NewLazFile, convertHeader, LasPoint, convertPoint,
Close) and `laszip_wrapper.go` (LaszipReader and its C-API adapter).
Go machine integers are embedded as `Nat` (unsigned) or `Int` (signed),
with `% 256` written where Go's 8-bit truncation matters; `float64`
fields are carried as `Float` and never inspected by control flow, exactly
as in the source.  The opaque LASzip C decoder is modelled by a `Backend`
oracle describing what each C call would return; effectful operations
additionally return the list of C-API calls they performed, so that
resource acquisition and release can be stated precisely.
-/

/-- One call into the opaque LASzip C API.  `create` allocates the native
decoder resource and `destroy` frees it; `closeReader` closes the read
stream; `openReader` and `readPoint` are the other stateful entry points. -/
inductive CCall where
  | create
  | openReader
  | readPoint
  | closeReader
  | destroy
deriving DecidableEq, Repr

/-- Raw per-point fields held in the C point record (`r.point` in
`laszip_wrapper.go`), together with the scaled coordinates that
`laszip_get_coordinates` would return for that record. -/
structure CPoint where
  x : Float
  y : Float
  z : Float
  intensity : Nat
  scanAngleRank : Int
  userData : Nat
  pointSourceID : Nat
  gpsTime : Float

/-- Header fields exposed by the LASzip decoder (`LaszipHeader` in
`laszip_wrapper.go`). -/
structure LaszipHeader where
  VersionMajor : Nat
  VersionMinor : Nat
  HeaderSize : Nat
  OffsetToPointData : Nat
  NumberOfVLRs : Nat
  PointDataFormat : Nat
  PointDataRecordLength : Nat
  NumberOfPointRecords : Nat
  XScaleFactor : Float
  YScaleFactor : Float
  ZScaleFactor : Float
  XOffset : Float
  YOffset : Float
  ZOffset : Float
  MaxX : Float
  MinX : Float
  MaxY : Float
  MinY : Float
  MaxZ : Float
  MinZ : Float

/-- Oracle for the opaque LASzip C decoder: what each C call would do for
the file behind a handle.  `headerView = none` models a null header
pointer (the only situation `LaszipReader.GetHeader` reports as nil after
a successful open); `readOk n` tells whether the n-th `laszip_read_point`
call succeeds and `rawPoint n` what the C point record holds after it;
`closeOk` / `destroyOk` tell whether `laszip_close_reader` and
`laszip_destroy` succeed, with the message `laszip_get_error` would
report when they do not. -/
structure Backend where
  createOk : Bool
  openOk : Bool
  headerView : Option LaszipHeader
  readOk : Nat → Bool
  readErrMsg : Nat → String
  closeOk : Bool
  closeErrMsg : String
  destroyOk : Bool
  destroyErrMsg : String
  rawPoint : Nat → CPoint

/-- Go-side state of `LaszipReader` (`laszip_wrapper.go`): the wrapped
decoder oracle plus the `isOpen` / `pointCount` / `currentPoint`
bookkeeping fields.  `header` mirrors the cached header pointer. -/
structure LaszipReader where
  backend : Backend
  header : Option LaszipHeader
  isOpen : Bool
  pointCount : Nat
  currentPoint : Nat

/-- `LaszipPoint` (`laszip_wrapper.go`): the decoded point handed from the
wrapper to `LazFile.convertPoint`. -/
structure LaszipPoint where
  X : Float
  Y : Float
  Z : Float
  Intensity : Nat
  ReturnNumber : Nat
  NumberOfReturns : Nat
  ScanDirectionFlag : Nat
  EdgeOfFlightFlag : Nat
  Classification : Nat
  ScanAngleRank : Int
  UserData : Nat
  PointSourceID : Nat
  GPSTime : Float

/-- GlobalEncodingField of the canonical header.  Modelled from the spec:
the canonical-header field types live in the uncompressed backend's file,
which is not among the analyzed sources; only its zero value is ever
built here, as in `convertHeader`. -/
structure GlobalEncodingField where
  Value : Nat

/-- Canonical `LasHeader` as populated by `LazFile.convertHeader`
(`lazfile.go`); field names follow the source. -/
structure LasHeader where
  FileSignature : String
  FileSourceID : Nat
  GlobalEncoding : GlobalEncodingField
  ProjectID1 : Nat
  ProjectID2 : Nat
  ProjectID3 : Nat
  ProjectID4 : List Nat
  VersionMajor : Nat
  VersionMinor : Nat
  SystemID : String
  GeneratingSoftware : String
  FileCreationDay : Nat
  FileCreationYear : Nat
  HeaderSize : Int
  OffsetToPoints : Int
  NumberOfVLRs : Int
  PointFormatID : Nat
  PointRecordLength : Int
  NumberPoints : Int
  NumberPointsByReturn : List Int
  XScaleFactor : Float
  YScaleFactor : Float
  ZScaleFactor : Float
  XOffset : Float
  YOffset : Float
  ZOffset : Float
  MaxX : Float
  MinX : Float
  MaxY : Float
  MinY : Float
  MaxZ : Float
  MinZ : Float

/-- Zero value of `LasHeader` (Go's `LasHeader{}`), the header a `LazFile`
carries before `convertHeader` fills it in. -/
def zeroLasHeader : LasHeader :=
  { FileSignature := ""
    FileSourceID := 0
    GlobalEncoding := { Value := 0 }
    ProjectID1 := 0, ProjectID2 := 0, ProjectID3 := 0
    ProjectID4 := [0, 0, 0, 0, 0, 0, 0, 0]
    VersionMajor := 0, VersionMinor := 0
    SystemID := "", GeneratingSoftware := ""
    FileCreationDay := 0, FileCreationYear := 0
    HeaderSize := 0, OffsetToPoints := 0, NumberOfVLRs := 0
    PointFormatID := 0, PointRecordLength := 0, NumberPoints := 0
    NumberPointsByReturn := [0, 0, 0, 0, 0]
    XScaleFactor := 0, YScaleFactor := 0, ZScaleFactor := 0
    XOffset := 0, YOffset := 0, ZOffset := 0
    MaxX := 0, MinX := 0, MaxY := 0, MinY := 0, MaxZ := 0, MinZ := 0 }

/-- Packed return/scan byte (`PointBitField` of the point model). -/
structure PointBitField where
  Value : Nat

/-- Packed classification/flags byte (`ClassificationBitField`). -/
structure ClassificationBitField where
  Value : Nat

/-- `RgbData`: the 3×16-bit color triple of formats 2 and 3. -/
structure RgbData where
  Red : Nat
  Green : Nat
  Blue : Nat
deriving DecidableEq, Repr

/-- `PointRecord0`: the shared core point record built by
`LazFile.convertPoint`. -/
structure PointRecord0 where
  X : Float
  Y : Float
  Z : Float
  Intensity : Nat
  BitField : PointBitField
  ClassBitField : ClassificationBitField
  ScanAngle : Int
  UserData : Nat
  PointSourceID : Nat

/-- The `LasPointer` family as a tagged variant: exactly the four record
shapes `convertPoint` can return (format 0 core record; format 1 adds GPS
time; format 2 adds color; format 3 adds both). -/
inductive LasPointer where
  | pr0 (p : PointRecord0)
  | pr1 (p : PointRecord0) (gpsTime : Float)
  | pr2 (p : PointRecord0) (rgb : RgbData)
  | pr3 (p : PointRecord0) (gpsTime : Float) (rgb : RgbData)

/-- Shared core record of any variant. -/
def LasPointer.record0 : LasPointer → PointRecord0
  | .pr0 p => p
  | .pr1 p _ => p
  | .pr2 p _ => p
  | .pr3 p _ _ => p

/-- Modelled from the spec: the capability query `has_gps_time()` of the
point-record family (the method set of `LasPointer` lives in the
uncompressed backend's file, not among the analyzed sources); a variant
has GPS time exactly when its shape carries the field. -/
def LasPointer.hasGpsTime : LasPointer → Bool
  | .pr1 _ _ => true
  | .pr3 _ _ _ => true
  | _ => false

/-- Modelled from the spec: the capability query `has_color()`; a variant
has color exactly when its shape carries the color triple. -/
def LasPointer.hasColor : LasPointer → Bool
  | .pr2 _ _ => true
  | .pr3 _ _ _ => true
  | _ => false

/-- Color triple of a variant, when its shape carries one. -/
def LasPointer.rgb : LasPointer → Option RgbData
  | .pr2 _ c => some c
  | .pr3 _ _ c => some c
  | _ => none

/-- The packed return byte built in `convertPoint`:
`lp.ReturnNumber | (lp.NumberOfReturns << 3) | (lp.ScanDirectionFlag << 6)
| (lp.EdgeOfFlightFlag << 7)` on Go `uint8`s, so every shift truncates to
8 bits. -/
def returnByteOf (lp : LaszipPoint) : Nat :=
  lp.ReturnNumber ||| ((lp.NumberOfReturns <<< 3) % 256)
    ||| ((lp.ScanDirectionFlag <<< 6) % 256) ||| ((lp.EdgeOfFlightFlag <<< 7) % 256)

/-- The classification byte built in `convertPoint`: starts from
`lp.Classification` and re-ORs the synthetic (0x20), key-point (0x40) and
withheld (0x80) bits whenever they are already set in the source byte. -/
def classificationByteOf (c : Nat) : Nat :=
  let b0 := c
  let b1 := if c &&& 0x20 ≠ 0 then b0 ||| 0x20 else b0
  let b2 := if c &&& 0x40 ≠ 0 then b1 ||| 0x40 else b1
  if c &&& 0x80 ≠ 0 then b2 ||| 0x80 else b2

/-- `LazFile.convertPoint` (`lazfile.go`): builds the shared
`PointRecord0` and then switches on the handle's header point format.
The handle state is only read through `Header.PointFormatID`, so the
function is embedded over that byte. -/
def convertPoint (pointFormatID : Nat) (lp : LaszipPoint) : LasPointer :=
  let bitField : PointBitField := { Value := returnByteOf lp }
  let classBitField : ClassificationBitField := { Value := classificationByteOf lp.Classification }
  let pointRecord : PointRecord0 :=
    { X := lp.X, Y := lp.Y, Z := lp.Z
      Intensity := lp.Intensity
      BitField := bitField
      ClassBitField := classBitField
      ScanAngle := lp.ScanAngleRank
      UserData := lp.UserData
      PointSourceID := lp.PointSourceID }
  match pointFormatID with
  | 0 => .pr0 pointRecord
  | 1 => .pr1 pointRecord lp.GPSTime
  | 2 => .pr2 pointRecord { Red := 0, Green := 0, Blue := 0 }
  | 3 => .pr3 pointRecord lp.GPSTime { Red := 0, Green := 0, Blue := 0 }
  | _ => .pr0 pointRecord

/-- `NewLaszipReader` (`laszip_wrapper.go`): allocates the native decoder
via `laszip_create`; on failure the error is returned with no reader.
The `create` call is recorded whether or not it succeeds. -/
def NewLaszipReader (b : Backend) : Except String LaszipReader × List CCall :=
  if b.createOk = false then
    (.error "failed to create LASzip pointer: unknown error", [CCall.create])
  else
    (.ok { backend := b, header := none, isOpen := false, pointCount := 0, currentPoint := 0 },
      [CCall.create])

/-- `LaszipReader.OpenReader` (`laszip_wrapper.go`): rejects an already
open reader before any C call; otherwise performs `laszip_open_reader`
(and the header/point pointer fetches, collapsed into the same success
flag since each failure path returns identically), then caches the header
view and initializes `pointCount` from `number_of_point_records` and
`currentPoint` to 0. -/
def LaszipReader.OpenReader (r : LaszipReader) (_filename : String) :
    Except String LaszipReader × List CCall :=
  if r.isOpen = true then (.error "reader already open", [])
  else if r.backend.openOk = false then (.error "open reader failed", [CCall.openReader])
  else
    (.ok { r with
        header := r.backend.headerView
        pointCount := (r.backend.headerView.map fun h => h.NumberOfPointRecords).getD 0
        currentPoint := 0
        isOpen := true },
      [CCall.openReader])

/-- `LaszipReader.ReadPoint` (`laszip_wrapper.go`): guards `isOpen` and
end-of-stream before touching the decoder, then calls
`laszip_read_point`; `currentPoint` advances only after a successful C
read.  On any error the reader's Go state is unchanged (the caller keeps
its old value). -/
def LaszipReader.ReadPoint (r : LaszipReader) : Except String LaszipReader × List CCall :=
  if r.isOpen = false then (.error "reader not open", [])
  else if r.pointCount ≤ r.currentPoint then (.error "EOF: no more points", [])
  else if r.backend.readOk r.currentPoint = false then
    (.error (r.backend.readErrMsg r.currentPoint), [CCall.readPoint])
  else
    (.ok { r with currentPoint := r.currentPoint + 1 }, [CCall.readPoint])

/-- `LaszipReader.GetPoint` (`laszip_wrapper.go`): nil unless the reader
is open (the C point pointer is non-null whenever `isOpen`, having been
fetched during `OpenReader`); otherwise adapts the current C point record
— the one produced by the last successful read, at index
`currentPoint - 1` — filling `ReturnNumber = 1`, `NumberOfReturns = 1`,
`ScanDirectionFlag = 0`, `EdgeOfFlightFlag = 0` and `Classification = 0`
as hard-coded defaults exactly as the source does. -/
def LaszipReader.GetPoint (r : LaszipReader) : Option LaszipPoint :=
  if r.isOpen = false then none
  else
    let cp := r.backend.rawPoint (r.currentPoint - 1)
    some { X := cp.x, Y := cp.y, Z := cp.z
           Intensity := cp.intensity
           ReturnNumber := 1
           NumberOfReturns := 1
           ScanDirectionFlag := 0
           EdgeOfFlightFlag := 0
           Classification := 0
           ScanAngleRank := cp.scanAngleRank
           UserData := cp.userData
           PointSourceID := cp.pointSourceID
           GPSTime := cp.gpsTime }

/-- `LaszipReader.GetHeader` (`laszip_wrapper.go`): nil unless open and
the cached header pointer is non-null. -/
def LaszipReader.GetHeader (r : LaszipReader) : Option LaszipHeader :=
  if r.isOpen = false then none else r.header

/-- `LaszipReader.Close` (`laszip_wrapper.go`): a no-op returning success
when the reader is not open; otherwise calls `laszip_close_reader` and,
if that succeeded, `laszip_destroy`.  Either C call failing returns the
decoder's error with the Go fields untouched — in particular `isOpen`
stays true, so a later `Close` re-invokes the C calls.  Only after both
calls succeed is `isOpen` cleared. -/
def LaszipReader.Close (r : LaszipReader) : Except String LaszipReader × List CCall :=
  if r.isOpen = false then (.ok r, [])
  else if r.backend.closeOk = false then
    (.error r.backend.closeErrMsg, [CCall.closeReader])
  else if r.backend.destroyOk = false then
    (.error r.backend.destroyErrMsg, [CCall.closeReader, CCall.destroy])
  else (.ok { r with isOpen := false }, [CCall.closeReader, CCall.destroy])

/-- `LazFile` (`lazfile.go`).  `reader` is never nil on a handle built by
`NewLazFile` (it is assigned before any failure path that returns a
handle), so it is embedded as a plain field. -/
structure LazFile where
  fileName : String
  fileMode : String
  reader : LaszipReader
  Header : LasHeader
  isCompressed : Bool
  currentPoint : Int

/-- `LazFile.convertHeader` (`lazfile.go`): fails only when the wrapper
reports a nil header; otherwise copies the LASzip header fields into the
canonical `LasHeader` verbatim (with zero placeholders for fields the
decoder does not expose) and performs no validation of scale factors,
point counts or the point-data-format. -/
def LazFile.convertHeader (lf : LazFile) : Except String LazFile :=
  match lf.reader.GetHeader with
  | none => .error "failed to get LASzip header"
  | some h =>
      .ok { lf with Header :=
        { FileSignature := "LASF"
          FileSourceID := 0
          GlobalEncoding := { Value := 0 }
          ProjectID1 := 0, ProjectID2 := 0, ProjectID3 := 0
          ProjectID4 := [0, 0, 0, 0, 0, 0, 0, 0]
          VersionMajor := h.VersionMajor
          VersionMinor := h.VersionMinor
          SystemID := "", GeneratingSoftware := ""
          FileCreationDay := 0, FileCreationYear := 0
          HeaderSize := (h.HeaderSize : Int)
          OffsetToPoints := (h.OffsetToPointData : Int)
          NumberOfVLRs := (h.NumberOfVLRs : Int)
          PointFormatID := h.PointDataFormat
          PointRecordLength := (h.PointDataRecordLength : Int)
          NumberPoints := (h.NumberOfPointRecords : Int)
          NumberPointsByReturn := [0, 0, 0, 0, 0]
          XScaleFactor := h.XScaleFactor
          YScaleFactor := h.YScaleFactor
          ZScaleFactor := h.ZScaleFactor
          XOffset := h.XOffset, YOffset := h.YOffset, ZOffset := h.ZOffset
          MaxX := h.MaxX, MinX := h.MinX
          MaxY := h.MaxY, MinY := h.MinY
          MaxZ := h.MaxZ, MinZ := h.MinZ } }

/-- `NewLazFile` (`lazfile.go`): rejects non-read modes, allocates the
decoder, opens the file, then normalizes the header.  Only the
header-conversion failure path calls `reader.Close()`; an `OpenReader`
failure returns the error directly with the already-created decoder
pointer never destroyed. -/
def NewLazFile (b : Backend) (fileName fileMode : String) :
    Except String LazFile × List CCall :=
  if fileMode ≠ "r" ∧ fileMode ≠ "rh" then
    (.error "LAZ files only support read mode", [])
  else
    match NewLaszipReader b with
    | (.error e, ops) => (.error ("failed to create LASzip reader: " ++ e), ops)
    | (.ok reader, ops1) =>
      let lazFile : LazFile :=
        { fileName := fileName, fileMode := fileMode, reader := reader
          Header := zeroLasHeader, isCompressed := true, currentPoint := 0 }
      match reader.OpenReader fileName with
      | (.error e, ops2) => (.error ("failed to open LAZ file: " ++ e), ops1 ++ ops2)
      | (.ok reader2, ops2) =>
        let lazFile2 := { lazFile with reader := reader2 }
        match lazFile2.convertHeader with
        | .error e =>
            let closed := reader2.Close
            (.error ("failed to convert header: " ++ e), ops1 ++ ops2 ++ closed.2)
        | .ok lazFile3 => (.ok lazFile3, ops1 ++ ops2)

/-- `LazFile.LasPoint` (`lazfile.go`): validates the index range, then the
sequential-access contract (`pointIndex == currentPoint`), both before
any decoder call; then reads and adapts the next point, advancing the
handle cursor only after every step has succeeded.  Returns the result,
the updated handle state, and the C calls performed. -/
def LazFile.LasPoint (lf : LazFile) (pointIndex : Int) :
    Except String LasPointer × LazFile × List CCall :=
  if pointIndex < 0 ∨ lf.Header.NumberPoints ≤ pointIndex then
    (.error "point index out of range", lf, [])
  else if pointIndex ≠ lf.currentPoint then
    (.error "random access not yet implemented for LAZ files", lf, [])
  else
    match lf.reader.ReadPoint with
    | (.error e, ops) => (.error ("failed to read point: " ++ e), lf, ops)
    | (.ok reader2, ops) =>
      let lf2 := { lf with reader := reader2 }
      match lf2.reader.GetPoint with
      | none => (.error "failed to get point data", lf2, ops)
      | some laszipPoint =>
        let lf3 := { lf2 with currentPoint := lf2.currentPoint + 1 }
        (.ok (convertPoint lf3.Header.PointFormatID laszipPoint), lf3, ops)

/-- `LazFile.GetXYZ` (`lazfile.go`): convenience composition over
`LasPoint`. -/
def LazFile.GetXYZ (lf : LazFile) (pointIndex : Int) :
    Except String (Float × Float × Float) × LazFile × List CCall :=
  match lf.LasPoint pointIndex with
  | (.error e, lf2, ops) => (.error e, lf2, ops)
  | (.ok p, lf2, ops) => (.ok (p.record0.X, p.record0.Y, p.record0.Z), lf2, ops)

/-- `LazFile.Close` (`lazfile.go`): delegates to the wrapper's close (the
nil-reader guard is vacuous on a constructed handle). -/
def LazFile.Close (lf : LazFile) : Except String LazFile × List CCall :=
  match lf.reader.Close with
  | (.ok reader2, ops) => (.ok { lf with reader := reader2 }, ops)
  | (.error e, ops) => (.error e, ops)

/-- Modelled from the spec: the index guard of the fully-buffered
backend's `read_point_at` (that backend's file is not among the analyzed
sources): a read at index i is valid for any 0 ≤ i < point_count and a
request with i ≥ point_count fails with `IndexOutOfRangeError`. -/
def LasFile.lasPointIndexOk (numberPoints pointIndex : Int) : Bool :=
  decide (0 ≤ pointIndex) && decide (pointIndex < numberPoints)

/-- Fixture: raw C point record with small distinctive attribute values. -/
def demoCPoint : CPoint :=
  { x := 0, y := 0, z := 0, intensity := 7, scanAngleRank := -4,
    userData := 5, pointSourceID := 6, gpsTime := 0 }

/-- Fixture: decoder header declaring 10 points of the given format. -/
def demoHeader (fmt : Nat) : LaszipHeader :=
  { VersionMajor := 1, VersionMinor := 2, HeaderSize := 227,
    OffsetToPointData := 227, NumberOfVLRs := 0, PointDataFormat := fmt,
    PointDataRecordLength := 20, NumberOfPointRecords := 10,
    XScaleFactor := 0, YScaleFactor := 0, ZScaleFactor := 0,
    XOffset := 0, YOffset := 0, ZOffset := 0,
    MaxX := 0, MinX := 0, MaxY := 0, MinY := 0, MaxZ := 0, MinZ := 0 }

/-- Fixture: a well-behaved decoder for a 10-point file of the given
format; every read succeeds and yields `demoCPoint`. -/
def demoBackend (fmt : Nat) : Backend :=
  { createOk := true, openOk := true, headerView := some (demoHeader fmt),
    readOk := fun _ => true, readErrMsg := fun _ => "decoder failure",
    closeOk := true, closeErrMsg := "laszip close reader failed",
    destroyOk := true, destroyErrMsg := "laszip destroy failed",
    rawPoint := fun _ => demoCPoint }

/-- Fixture: the wrapper state right after a successful `OpenReader` on
`demoBackend fmt`. -/
def demoReader (fmt : Nat) : LaszipReader :=
  { backend := demoBackend fmt, header := some (demoHeader fmt),
    isOpen := true, pointCount := 10, currentPoint := 0 }

/-- Fixture: a freshly opened 10-point streaming handle of the given
format (cursor at 0). -/
def demoLazFile (fmt : Nat) : LazFile :=
  { fileName := "demo.laz", fileMode := "r", reader := demoReader fmt,
    Header := { zeroLasHeader with PointFormatID := fmt, NumberPoints := 10 },
    isCompressed := true, currentPoint := 0 }

/-- Fixture: n successive sequential reads (each at the handle's own
cursor), keeping only the evolving handle state. -/
def readSeq (lf : LazFile) : Nat → LazFile
  | 0 => lf
  | n + 1 => ((readSeq lf n).LasPoint (readSeq lf n).currentPoint).2.1

/-- Fixture: the `LaszipPoint` that `GetPoint` yields for `demoCPoint`
(adapter defaults filled in). -/
def demoLaszipPoint : LaszipPoint :=
  { X := 0, Y := 0, Z := 0, Intensity := 7,
    ReturnNumber := 1, NumberOfReturns := 1,
    ScanDirectionFlag := 0, EdgeOfFlightFlag := 0, Classification := 0,
    ScanAngleRank := -4, UserData := 5, PointSourceID := 6, GPSTime := 0 }

/-- Fixture: `demoLazFile fmt` after one successful sequential read. -/
def demoAfter1 (fmt : Nat) : LazFile :=
  { demoLazFile fmt with
    reader := { demoReader fmt with currentPoint := 1 }, currentPoint := 1 }

/-- Fixture: a decoder whose header is invalid by the spec's criteria —
zero scale factors, point-data-format 99 and a record length of 0 that
cannot fit its 7 declared points. -/
def badHeader : LaszipHeader :=
  { demoHeader 99 with PointDataRecordLength := 0, NumberOfPointRecords := 7 }

/-- Fixture: a backend reporting `badHeader`. -/
def badBackend : Backend :=
  { demoBackend 99 with headerView := some badHeader }

/-- Fixture: a backend whose native open fails after a successful create. -/
def leakBackend : Backend :=
  { demoBackend 0 with openOk := false }

/-- Fixture: a backend that opens fine but exposes a null header pointer. -/
def nullHeaderBackend : Backend :=
  { demoBackend 0 with headerView := none }

/-- Fixture: a freshly opened handle whose decoder fails every read. -/
def demoBadRead : LazFile :=
  { demoLazFile 0 with
    reader := { demoReader 0 with
      backend := { demoBackend 0 with readOk := fun _ => false } } }

/-- Fixture: an open handle whose decoder accepts the close of the read
stream but fails the destroy of the native pointer. -/
def badDestroyLazFile : LazFile :=
  { demoLazFile 0 with
    reader := { demoReader 0 with
      backend := { demoBackend 0 with destroyOk := false } } }

/-- Fixture: an open handle whose cached header pointer is nil. -/
def nullHeaderLazFile : LazFile :=
  { demoLazFile 0 with reader := { demoReader 0 with header := none } }

/-- Helper: a successful `ReadPoint` implies the reader was open and below
the end of stream, advances only `currentPoint`, and performed exactly one
C read call. -/
theorem readPoint_ok_shape (r r2 : LaszipReader) (ops : List CCall)
    (h : r.ReadPoint = (.ok r2, ops)) :
    r.isOpen = true ∧ r.currentPoint < r.pointCount ∧
      r2 = { r with currentPoint := r.currentPoint + 1 } ∧
      ops = [CCall.readPoint] := by
  unfold LaszipReader.ReadPoint at h
  split at h
  · simp at h
  · split at h
    · simp at h
    · split at h
      · simp at h
      · simp_all

/-- Helper: a successful `LasPoint` returns exactly the variant that
`convertPoint` builds for the header's format from the adapter point of
the advanced reader; the index equals the old cursor, the header is
unchanged, and the cursor advances by one. -/
theorem lasPoint_ok_shape (lf : LazFile) (i : Int) (p : LasPointer)
    (lf2 : LazFile) (ops : List CCall)
    (h : lf.LasPoint i = (.ok p, lf2, ops)) :
    ∃ lp, lf2.reader.GetPoint = some lp ∧
      p = convertPoint lf.Header.PointFormatID lp ∧
      lf2.Header = lf.Header ∧ i = lf.currentPoint ∧
      lf2.currentPoint = lf.currentPoint + 1 := by
  unfold LazFile.LasPoint at h
  split at h
  · simp at h
  · rename_i hrange
    split at h
    · simp at h
    · rename_i hne
      split at h
      · simp at h
      · rename_i reader2 ops1 hread
        dsimp only at h
        split at h
        · simp at h
        · rename_i lp hget
          simp only [Prod.mk.injEq, Except.ok.injEq] at h
          obtain ⟨hp, hlf2, hops⟩ := h
          have hi : i = lf.currentPoint := not_ne_iff.mp hne
          refine ⟨lp, ?_, ?_, ?_, hi, ?_⟩
          · rw [← hlf2]
            exact hget
          · exact hp.symm
          · rw [← hlf2]
          · rw [← hlf2]

/-- Helper: whatever the format tag, the core record of the variant built
by `convertPoint` carries the packed return byte and the re-ORed
classification byte. -/
theorem convertPoint_record0_bitfields (fmt : Nat) (lp : LaszipPoint) :
    (convertPoint fmt lp).record0.BitField.Value = returnByteOf lp ∧
    (convertPoint fmt lp).record0.ClassBitField.Value =
      classificationByteOf lp.Classification := by
  unfold convertPoint
  split <;> exact ⟨rfl, rfl⟩

set_option maxRecDepth 4096 in
/-- Helper: re-ORing bits that are already present is the identity on
every byte value. -/
theorem classificationByteOf_id : ∀ b < 256, classificationByteOf b = b := by
  decide

/-- Claim C3: for every source classification byte value b in 0–255, the
classification byte stored in the point produced by `convertPoint` equals
b exactly: the OR-ing of the synthetic (0x20), key-point (0x40) and
withheld (0x80) flag bits is the identity on the byte (the flags are
pass-through, never independently set or cleared), so the encoding is a
lossless round trip over the full byte range. -/
theorem convertPoint_classification_lossless (fmt b : Nat) (lp : LaszipPoint)
    (hb : b < 256) (hc : lp.Classification = b) :
    (convertPoint fmt lp).record0.ClassBitField.Value = b := by
  rw [(convertPoint_record0_bitfields fmt lp).2, hc]
  exact classificationByteOf_id b hb

/-- Witness for C3 at the byte 0xED (all three flag bits set). -/
theorem convertPoint_classification_lossless_witness :
    (convertPoint 0 { demoLaszipPoint with
      Classification := 0xED }).record0.ClassBitField.Value = 0xED :=
  convertPoint_classification_lossless 0 0xED _ (by decide) rfl

/-- Claim C9: the decoder adapter hard-codes return_number = 1,
number_of_returns = 1, scan_direction_flag = 0, edge_of_flight_flag = 0
and classification = 0 for every point it yields, independent of the
file's contents, so every point successfully read through the streaming
backend carries packed return byte 0x09 and classification byte 0x00. -/
theorem getPoint_constant_flags :
    (∀ (r : LaszipReader) (lp : LaszipPoint), r.GetPoint = some lp →
      lp.ReturnNumber = 1 ∧ lp.NumberOfReturns = 1 ∧ lp.ScanDirectionFlag = 0 ∧
        lp.EdgeOfFlightFlag = 0 ∧ lp.Classification = 0) ∧
    (∀ (lf : LazFile) (i : Int) (p : LasPointer) (lf2 : LazFile) (ops : List CCall),
      lf.LasPoint i = (.ok p, lf2, ops) →
      p.record0.BitField.Value = 0x09 ∧ p.record0.ClassBitField.Value = 0x00) := by
  have hadapter : ∀ (r : LaszipReader) (lp : LaszipPoint), r.GetPoint = some lp →
      lp.ReturnNumber = 1 ∧ lp.NumberOfReturns = 1 ∧ lp.ScanDirectionFlag = 0 ∧
        lp.EdgeOfFlightFlag = 0 ∧ lp.Classification = 0 := by
    intro r lp h
    unfold LaszipReader.GetPoint at h
    split at h
    · simp at h
    · simp only [Option.some.injEq] at h
      subst h
      exact ⟨rfl, rfl, rfl, rfl, rfl⟩
  refine ⟨hadapter, ?_⟩
  intro lf i p lf2 ops h
  obtain ⟨lp, hget, hp, -, -, -⟩ := lasPoint_ok_shape lf i p lf2 ops h
  obtain ⟨h1, h2, h3, h4, h5⟩ := hadapter _ _ hget
  obtain ⟨hbit, hcls⟩ := convertPoint_record0_bitfields lf.Header.PointFormatID lp
  subst hp
  constructor
  · rw [hbit]
    unfold returnByteOf
    rw [h1, h2, h3, h4]
    decide
  · rw [hcls, h5]
    decide

/-- Witness for C9 on the demo reader and a format-0 read. -/
theorem getPoint_constant_flags_witness :
    demoLaszipPoint.ReturnNumber = 1 ∧ demoLaszipPoint.Classification = 0 ∧
    (convertPoint 0 demoLaszipPoint).record0.BitField.Value = 9 ∧
    (convertPoint 0 demoLaszipPoint).record0.ClassBitField.Value = 0 := by
  obtain ⟨hA, hB⟩ := getPoint_constant_flags
  have h1 := hA { demoReader 0 with currentPoint := 1 } demoLaszipPoint rfl
  have h2 := hB (demoLazFile 0) 0 (convertPoint 0 demoLaszipPoint) (demoAfter1 0)
    [CCall.readPoint] rfl
  exact ⟨h1.1, h1.2.2.2.2, h2.1, h2.2⟩

/-- Claim C4: a successful read on a handle whose header declares a
supported point-data-format f in {0,1,2,3} returns the variant whose
capability set exactly matches f — GPS time present exactly for f = 1 or
f = 3, color present exactly for f = 2 or f = 3. -/
theorem lasPoint_capability_matches_format (lf : LazFile) (i : Int) (p : LasPointer)
    (lf2 : LazFile) (ops : List CCall)
    (hf : lf.Header.PointFormatID < 4)
    (h : lf.LasPoint i = (.ok p, lf2, ops)) :
    p.hasGpsTime = (lf.Header.PointFormatID == 1 || lf.Header.PointFormatID == 3) ∧
    p.hasColor = (lf.Header.PointFormatID == 2 || lf.Header.PointFormatID == 3) := by
  obtain ⟨lp, -, hp, -, -, -⟩ := lasPoint_ok_shape lf i p lf2 ops h
  subst hp
  set fmt := lf.Header.PointFormatID with hfmt
  interval_cases fmt <;> exact ⟨rfl, rfl⟩

/-- Witness for C4 on a format-3 read (both capabilities present). -/
theorem lasPoint_capability_matches_format_witness :
    (convertPoint 3 demoLaszipPoint).hasGpsTime = true ∧
    (convertPoint 3 demoLaszipPoint).hasColor = true := by
  obtain ⟨h1, h2⟩ := lasPoint_capability_matches_format (demoLazFile 3) 0
    (convertPoint 3 demoLaszipPoint) (demoAfter1 3) [CCall.readPoint] (by decide) rfl
  exact ⟨h1.trans rfl, h2.trans rfl⟩

/-- Claim C10: on a handle whose header declares format 2 or 3, every
successfully read point carries the color triple (0, 0, 0) regardless of
the file's stored colors — `convertPoint` never extracts color from the
decoder, it only exposes the capability. -/
theorem lasPoint_color_always_zero (lf : LazFile) (i : Int) (p : LasPointer)
    (lf2 : LazFile) (ops : List CCall)
    (hf : lf.Header.PointFormatID = 2 ∨ lf.Header.PointFormatID = 3)
    (h : lf.LasPoint i = (.ok p, lf2, ops)) :
    p.rgb = some { Red := 0, Green := 0, Blue := 0 } := by
  obtain ⟨lp, -, hp, -, -, -⟩ := lasPoint_ok_shape lf i p lf2 ops h
  subst hp
  rcases hf with hf | hf <;> rw [hf] <;> rfl

/-- Witness for C10 on a format-2 read. -/
theorem lasPoint_color_always_zero_witness :
    (convertPoint 2 demoLaszipPoint).rgb = some { Red := 0, Green := 0, Blue := 0 } :=
  lasPoint_color_always_zero (demoLazFile 2) 0 (convertPoint 2 demoLaszipPoint)
    (demoAfter1 2) [CCall.readPoint] (Or.inl rfl) rfl

/-- Claim C6: every failed point read on the streaming backend leaves the
handle's cursor unchanged — whenever `LasPoint` returns an error
(out-of-order index, out-of-range index, or a decoder failure), the
handle state after the call carries the same `currentPoint` as before,
and nothing is retried. -/
theorem lasPoint_error_cursor_unchanged (lf : LazFile) (i : Int) (e : String)
    (lf2 : LazFile) (ops : List CCall)
    (h : lf.LasPoint i = (.error e, lf2, ops)) :
    lf2.currentPoint = lf.currentPoint := by
  unfold LazFile.LasPoint at h
  split at h
  · simp only [Prod.mk.injEq] at h
    rw [← h.2.1]
  · split at h
    · simp only [Prod.mk.injEq] at h
      rw [← h.2.1]
    · split at h
      · simp only [Prod.mk.injEq] at h
        rw [← h.2.1]
      · rename_i reader2 ops1 hread
        dsimp only at h
        split at h
        · simp only [Prod.mk.injEq] at h
          rw [← h.2.1]
        · simp at h

/-- Witness for C6 at two concrete failures: an out-of-order request on a
fresh handle and a decoder failure on the first sequential read. -/
theorem lasPoint_error_cursor_unchanged_witness :
    ((demoLazFile 0).LasPoint 5).2.1.currentPoint = (demoLazFile 0).currentPoint ∧
    (demoBadRead.LasPoint 0).2.1.currentPoint = demoBadRead.currentPoint := by
  constructor
  · exact lasPoint_error_cursor_unchanged (demoLazFile 0) 5
      "random access not yet implemented for LAZ files"
      ((demoLazFile 0).LasPoint 5).2.1 [] rfl
  · exact lasPoint_error_cursor_unchanged demoBadRead 0
      "failed to read point: decoder failure"
      (demoBadRead.LasPoint 0).2.1 [CCall.readPoint] rfl

/-- Claim C7: a read at any index i with i ≥ point_count always fails with
the out-of-range error, whatever the cursor position, returning the
handle untouched and performing no decoder call; the buffered backend's
index guard (modelled from the spec) likewise rejects it, and the
wrapper's own `ReadPoint` guard fails with the end-of-stream error before
touching the decoder once the cursor has reached the point count. -/
theorem lasPoint_index_past_end_fails (lf : LazFile) (i : Int)
    (h : lf.Header.NumberPoints ≤ i) :
    lf.LasPoint i = (.error "point index out of range", lf, []) ∧
    LasFile.lasPointIndexOk lf.Header.NumberPoints i = false ∧
    (∀ r : LaszipReader, r.isOpen = true → r.pointCount ≤ r.currentPoint →
      r.ReadPoint = (.error "EOF: no more points", [])) := by
  refine ⟨?_, ?_, ?_⟩
  · unfold LazFile.LasPoint
    rw [if_pos (Or.inr h)]
  · unfold LasFile.lasPointIndexOk
    simp only [Bool.and_eq_false_iff, decide_eq_false_iff_not, not_le, not_lt]
    right
    exact h
  · intro r hopen hcnt
    unfold LaszipReader.ReadPoint
    rw [if_neg (by simp [hopen]), if_pos hcnt]

/-- Witness for C7 at index 10 on a fresh 10-point handle and a reader
whose cursor has reached the point count. -/
theorem lasPoint_index_past_end_fails_witness :
    (demoLazFile 0).LasPoint 10 = (.error "point index out of range", demoLazFile 0, []) ∧
    LasFile.lasPointIndexOk 10 10 = false ∧
    ({ demoReader 0 with currentPoint := 10 } : LaszipReader).ReadPoint =
      (.error "EOF: no more points", []) := by
  obtain ⟨h1, h2, h3⟩ := lasPoint_index_past_end_fails (demoLazFile 0) 10 (by decide)
  exact ⟨h1, h2, h3 _ rfl (by decide)⟩

/-- Claim C5 (counterexample): when `laszip_destroy` fails — a branch the
source handles by returning the decoder error with `isOpen` left true —
the first `Close` on an open handle errors, so "calling Close() twice
never errors" is false; and since the error path leaves the handle's Go
state untouched (it is still open), the next `Close` re-invokes
`laszip_close_reader` on the already-closed stream. -/
theorem close_destroy_failure_errors :
    badDestroyLazFile.reader.isOpen = true ∧
    badDestroyLazFile.Close =
      (.error "laszip destroy failed", [CCall.closeReader, CCall.destroy]) :=
  ⟨rfl, rfl⟩

/-- Claim C5 (amended): when the backend's close-reader and destroy calls
succeed, closing twice never errors and never double-frees — the first
`Close` on an open handle performs exactly one close-reader and one
destroy call, and any `Close` after a successful `Close` is a no-op
returning success with no backend calls at all.  (If either backend call
fails, `Close` returns the error with `isOpen` left true and a later
`Close` re-attempts the backend calls.) -/
theorem close_idempotent_single_release (lf : LazFile)
    (hclose : lf.reader.backend.closeOk = true)
    (hdestroy : lf.reader.backend.destroyOk = true) :
    (lf.reader.isOpen = true →
      lf.Close = (.ok { lf with reader := { lf.reader with isOpen := false } },
        [CCall.closeReader, CCall.destroy])) ∧
    (∀ (lf2 : LazFile) (ops : List CCall), lf.Close = (.ok lf2, ops) →
      lf2.Close = (.ok lf2, [])) := by
  constructor
  · intro hopen
    unfold LazFile.Close LaszipReader.Close
    rw [if_neg (by simp [hopen]), if_neg (by simp [hclose]),
      if_neg (by simp [hdestroy])]
  · intro lf2 ops h
    by_cases hop : lf.reader.isOpen = false
    · have hc : lf.Close = (.ok lf, []) := by
        unfold LazFile.Close LaszipReader.Close
        rw [if_pos hop]
      rw [hc] at h
      simp only [Prod.mk.injEq, Except.ok.injEq] at h
      rw [← h.1]
      exact hc
    · have hc : lf.Close =
          (.ok { lf with reader := { lf.reader with isOpen := false } },
            [CCall.closeReader, CCall.destroy]) := by
        unfold LazFile.Close LaszipReader.Close
        rw [if_neg hop, if_neg (by simp [hclose]), if_neg (by simp [hdestroy])]
      rw [hc] at h
      simp only [Prod.mk.injEq, Except.ok.injEq] at h
      rw [← h.1]
      unfold LazFile.Close LaszipReader.Close
      rw [if_pos rfl]

/-- Witness for C5 on the demo handle, whose decoder accepts both close
calls: first close releases once; closing the resulting handle is a
success no-op. -/
theorem close_idempotent_single_release_witness :
    (demoLazFile 0).Close =
      (.ok { demoLazFile 0 with reader := { demoReader 0 with isOpen := false } },
        [CCall.closeReader, CCall.destroy]) ∧
    ({ demoLazFile 0 with reader := { demoReader 0 with isOpen := false } } : LazFile).Close =
      (.ok { demoLazFile 0 with reader := { demoReader 0 with isOpen := false } }, []) := by
  obtain ⟨h1, h2⟩ := close_idempotent_single_release (demoLazFile 0) rfl rfl
  have hc := h1 rfl
  exact ⟨hc, h2 _ _ hc⟩

/-- Claim C1 (counterexample): the out-of-order failure does not name the
expected index.  On a fresh 10-point handle (expected index 0) and on the
same handle after 3 successful sequential reads (expected index 3),
`LasPoint 5` fails with one and the same fixed message — which moreover
contains no digit — so the error cannot name the expected index as the
claim states. -/
theorem lasPoint_out_of_order_fixed_message :
    (demoLazFile 0).currentPoint = 0 ∧
    (readSeq (demoLazFile 0) 3).currentPoint = 3 ∧
    ((demoLazFile 0).LasPoint 5).1 =
      .error "random access not yet implemented for LAZ files" ∧
    ((readSeq (demoLazFile 0) 3).LasPoint 5).1 =
      .error "random access not yet implemented for LAZ files" ∧
    ("random access not yet implemented for LAZ files".toList.all
      fun c => !c.isDigit) = true :=
  ⟨rfl, by decide, rfl, rfl, by decide⟩

/-- Claim C1 (amended): a read at an in-range index i on the streaming
handle succeeds only when i equals the cursor: with i ≠ currentPoint,
`LasPoint i` fails with the fixed message "random access not yet
implemented for LAZ files" (not one naming the expected index), leaving
the handle unchanged and performing no decoder call; with
i = currentPoint and a successful decoder read, the call succeeds and the
cursor becomes i + 1. -/
theorem lasPoint_sequential_contract (lf : LazFile) (i : Int)
    (h0 : 0 ≤ i) (hn : i < lf.Header.NumberPoints) :
    (i ≠ lf.currentPoint →
      lf.LasPoint i =
        (.error "random access not yet implemented for LAZ files", lf, [])) ∧
    (i = lf.currentPoint →
      ∀ (r2 : LaszipReader) (ops : List CCall),
        lf.reader.ReadPoint = (.ok r2, ops) →
        (lf.LasPoint i).2.1.currentPoint = i + 1 ∧
        ∃ p : LasPointer, (lf.LasPoint i).1 = .ok p) := by
  constructor
  · intro hne
    unfold LazFile.LasPoint
    rw [if_neg (by omega), if_pos hne]
  · intro heq r2 ops hread
    obtain ⟨hopen, -, hr2, hops⟩ := readPoint_ok_shape lf.reader r2 ops hread
    subst hops
    have hne2 : ¬ i ≠ lf.currentPoint := not_ne_iff.mpr heq
    have hget : r2.GetPoint = some
        { X := (r2.backend.rawPoint (r2.currentPoint - 1)).x
          Y := (r2.backend.rawPoint (r2.currentPoint - 1)).y
          Z := (r2.backend.rawPoint (r2.currentPoint - 1)).z
          Intensity := (r2.backend.rawPoint (r2.currentPoint - 1)).intensity
          ReturnNumber := 1
          NumberOfReturns := 1
          ScanDirectionFlag := 0
          EdgeOfFlightFlag := 0
          Classification := 0
          ScanAngleRank := (r2.backend.rawPoint (r2.currentPoint - 1)).scanAngleRank
          UserData := (r2.backend.rawPoint (r2.currentPoint - 1)).userData
          PointSourceID := (r2.backend.rawPoint (r2.currentPoint - 1)).pointSourceID
          GPSTime := (r2.backend.rawPoint (r2.currentPoint - 1)).gpsTime } := by
      unfold LaszipReader.GetPoint
      rw [if_neg (by rw [hr2]; simp [hopen])]
    have hgoal : lf.LasPoint i =
        (.ok (convertPoint lf.Header.PointFormatID (r2.GetPoint.getD demoLaszipPoint)),
          { lf with reader := r2, currentPoint := lf.currentPoint + 1 },
          [CCall.readPoint]) := by
      unfold LazFile.LasPoint
      rw [if_neg (by omega), if_neg hne2, hread]
      dsimp only
      rw [hget]
      rfl
    rw [hgoal]
    refine ⟨?_, ⟨_, rfl⟩⟩
    dsimp only
    omega

/-- Witness for C1 on the spec's 10-point scenario: `LasPoint 5` on a
fresh handle fails; after 5 successful sequential reads `LasPoint 5`
succeeds moving the cursor to 6, and `LasPoint 4` fails. -/
theorem lasPoint_sequential_contract_witness :
    ((demoLazFile 0).LasPoint 5).1 =
      .error "random access not yet implemented for LAZ files" ∧
    ((readSeq (demoLazFile 0) 5).LasPoint 5).2.1.currentPoint = 6 ∧
    ((readSeq (demoLazFile 0) 5).LasPoint 4).1 =
      .error "random access not yet implemented for LAZ files" := by
  refine ⟨?_, ?_, ?_⟩
  · have h := (lasPoint_sequential_contract (demoLazFile 0) 5
      (by decide) (by decide)).1 (by decide)
    rw [h]
  · have h := ((lasPoint_sequential_contract (readSeq (demoLazFile 0) 5) 5
      (by decide) (by decide)).2 (by decide)
      { demoReader 0 with currentPoint := 6 } [CCall.readPoint] rfl).1
    exact h.trans (by decide)
  · have h := (lasPoint_sequential_contract (readSeq (demoLazFile 0) 5) 4
      (by decide) (by decide)).1 (by decide)
    rw [h]

/-- Claim C2 (counterexample): a backend header with zero scale factors on
all three axes, point-data-format 99 (outside {0,1,2,3}) and a 0-byte
record length that cannot fit its 7 declared points is accepted:
`NewLazFile` returns a handle — no HeaderError — carrying format 99
unvalidated. -/
theorem newLazFile_accepts_invalid_header :
    badHeader.XScaleFactor = 0 ∧ badHeader.YScaleFactor = 0 ∧
    badHeader.ZScaleFactor = 0 ∧ badHeader.PointDataFormat = 99 ∧
    badHeader.PointDataRecordLength = 0 ∧ badHeader.NumberOfPointRecords = 7 ∧
    ((NewLazFile badBackend "bad.laz" "r").1.map fun lf => lf.Header.PointFormatID) =
      .ok 99 :=
  ⟨rfl, rfl, rfl, rfl, rfl, rfl, rfl⟩

/-- Claim C2 (amended): header normalization on the streaming backend
fails only when the wrapper reports a nil header; every non-nil header —
zero scale factors, inconsistent point counts and out-of-set formats
included — is copied verbatim and accepted, and a point-data-format
outside {0,1,2,3} is not rejected at any stage but silently defaulted to
the format-0 variant by `convertPoint`. -/
theorem convertHeader_validates_nothing (lf : LazFile) :
    (lf.reader.GetHeader = none →
      lf.convertHeader = .error "failed to get LASzip header") ∧
    (∀ h : LaszipHeader, lf.reader.GetHeader = some h →
      (lf.convertHeader.map fun lf2 => lf2.Header.PointFormatID) =
        .ok h.PointDataFormat) ∧
    (∀ (fmt : Nat) (lp : LaszipPoint), 4 ≤ fmt →
      convertPoint fmt lp = .pr0 (convertPoint 0 lp).record0) := by
  refine ⟨?_, ?_, ?_⟩
  · intro hnone
    unfold LazFile.convertHeader
    rw [hnone]
  · intro h hsome
    unfold LazFile.convertHeader
    rw [hsome]
    rfl
  · intro fmt lp hfmt
    obtain ⟨k, rfl⟩ : ∃ k, fmt = k + 4 := ⟨fmt - 4, by omega⟩
    rfl

/-- Witness for C2 (amended) on a nil-header handle, the demo handle, and
format 99. -/
theorem convertHeader_validates_nothing_witness :
    nullHeaderLazFile.convertHeader = .error "failed to get LASzip header" ∧
    ((demoLazFile 0).convertHeader.map fun lf2 => lf2.Header.PointFormatID) = .ok 0 ∧
    convertPoint 99 demoLaszipPoint = .pr0 (convertPoint 0 demoLaszipPoint).record0 := by
  refine ⟨(convertHeader_validates_nothing nullHeaderLazFile).1 rfl, ?_,
    (convertHeader_validates_nothing (demoLazFile 0)).2.2 99 demoLaszipPoint (by decide)⟩
  exact (convertHeader_validates_nothing (demoLazFile 0)).2.1 (demoHeader 0) rfl

/-- Claim C8 (counterexample): when the native open fails after the
decoder pointer was created, `NewLazFile` returns the error without
releasing the pointer: the C-call trace of that failure path holds one
`create` and no `destroy`, so the decoder resource leaks. -/
theorem newLazFile_open_failure_leaks :
    (NewLazFile leakBackend "f.laz" "r").1 =
      .error "failed to open LAZ file: open reader failed" ∧
    (NewLazFile leakBackend "f.laz" "r").2.count CCall.create = 1 ∧
    (NewLazFile leakBackend "f.laz" "r").2.count CCall.destroy = 0 :=
  ⟨rfl, by decide, by decide⟩

/-- Claim C8 (amended): of `NewLazFile`'s failure paths after the decoder
pointer exists, only the header-normalization failure releases it — close
reader plus destroy before returning the error; a native-open failure
returns the error having performed no close and no destroy, leaking the
created pointer. -/
theorem newLazFile_release_only_on_header_failure (b : Backend) (fn : String)
    (hc : b.createOk = true) (ho : b.openOk = true) (hh : b.headerView = none)
    (hcl : b.closeOk = true) (hd : b.destroyOk = true) :
    (NewLazFile b fn "r").1 =
      .error "failed to convert header: failed to get LASzip header" ∧
    (NewLazFile b fn "r").2 =
      [CCall.create, CCall.openReader, CCall.closeReader, CCall.destroy] ∧
    (∀ b2 : Backend, b2.createOk = true → b2.openOk = false →
      (NewLazFile b2 fn "r").1 = .error "failed to open LAZ file: open reader failed" ∧
      (NewLazFile b2 fn "r").2 = [CCall.create, CCall.openReader]) := by
  obtain ⟨bc, bo, bh, brd, brm, bcl, bcm, bd, bdm, bp⟩ := b
  subst hc
  subst ho
  subst hh
  subst hcl
  subst hd
  refine ⟨rfl, rfl, ?_⟩
  intro b2 hc2 ho2
  obtain ⟨cc, co, ch, crd, crm, ccl, ccm, cd, cdm, cp⟩ := b2
  subst hc2
  subst ho2
  exact ⟨rfl, rfl⟩

/-- Witness for C8 (amended) on the nil-header and failing-open demo
backends. -/
theorem newLazFile_release_only_on_header_failure_witness :
    (NewLazFile nullHeaderBackend "f.laz" "r").2 =
      [CCall.create, CCall.openReader, CCall.closeReader, CCall.destroy] ∧
    (NewLazFile leakBackend "f.laz" "r").2 = [CCall.create, CCall.openReader] := by
  obtain ⟨h1, h2, h3⟩ :=
    newLazFile_release_only_on_header_failure nullHeaderBackend "f.laz" rfl rfl rfl rfl rfl
  exact ⟨h2, (h3 leakBackend rfl rfl).2⟩
